import Mathlib

/-!
Verification of the Google Workspace MCP server's credential lifecycle and
tool-layer behaviour, as a shallow embedding in Lean 4.

Sources embedded here:
- `workspace-server/src/index.ts` — `main`, the `auth.clear` and
  `docs.extractIdFromUrl` tool handlers;
- `scripts/auth-utils.js` — `expireToken`, `showStatus`, `clearAuth`.

The `AuthManager` / `OAuthCredentialStorage` implementation
(`workspace-server/src/auth/AuthManager.ts`, `auth-utils` storage module) is
not part of the source tree available here; only its callers are. Those parts
are modelled from the specification (spec.md section 4.1 "Credential Lifecycle
Manager" and section 3 "Data Model"), with doc comments marking each such
definition.
-/

namespace GoogleWorkspaceMcp

/-- The persisted Credential Set (spec section 3): the stored JSON file may
lack individual fields, so each scalar field is optional. Timestamps are
millisecond clock values, signed as in JavaScript. -/
structure Credentials where
  access_token : Option String
  refresh_token : Option String
  expiry_date : Option Int
  granted_scopes : List String
  deriving Repr, DecidableEq

/-- Modelled from the spec: the token set produced by a successful interactive
authorization (spec section 8: "success stores a Credential Set with all four
fields populated"). `AuthManager`'s interactive flow is not in the source
tree. -/
structure TokenGrant where
  access_token : String
  refresh_token : String
  expiry_date : Int
  granted_scopes : List String
  deriving Repr, DecidableEq

/-- Modelled from the spec: a Credential Set created from an interactive
grant, with all four fields populated. -/
def TokenGrant.toCredentials (g : TokenGrant) : Credentials :=
  { access_token := some g.access_token
    refresh_token := some g.refresh_token
    expiry_date := some g.expiry_date
    granted_scopes := g.granted_scopes }

/-- Modelled from the spec: the token endpoint's answer to an accepted
refresh-token exchange — a fresh access token and expiry, and optionally a
rotated refresh token (spec section 8: "old refresh_token retained if server
did not rotate it"). -/
structure RefreshResponse where
  access_token : String
  expiry_date : Int
  rotated_refresh_token : Option String
  deriving Repr, DecidableEq

/-- Modelled from the spec: the error taxonomy of spec section 7 restricted to
the credential lifecycle operations. -/
inductive AuthError where
  | authorizationFailed
  | refreshFailed
  deriving Repr, DecidableEq

/-- Modelled from the spec: the environment one `getAuthenticatedClient()`
call runs in — the current clock value, the proactive-refresh safety margin
(spec section 4.1: "refresh proactively within N seconds of expiry"), the
outcome the interactive flow would produce if run (`none` = the user did not
complete consent), and the token endpoint's answer to a refresh exchange if
one is attempted (`none` = refresh_token rejected). -/
structure Env where
  now : Int
  margin : Int
  interactive : Option TokenGrant
  refresh : Option RefreshResponse
  deriving Repr, DecidableEq

/-- Modelled from the spec: the observable result of one manager operation —
the persisted state afterwards, the returned handle or error, and how many
refresh exchanges and network calls were made during the call. -/
structure AuthResult where
  state : Option Credentials
  outcome : Except AuthError Credentials
  refreshCalls : Nat
  networkCalls : Nat
  interactiveCalls : Nat
  deriving Repr

/-- Modelled from the spec: the staleness test used by the manager — the
access token counts as usable only when `expiry_date` lies strictly beyond
`now` plus the safety margin (spec section 4.1: "unexpired (with a safety
margin)"); a stored set with no recorded expiry is treated as needing
refresh. -/
def isFresh (expiry : Option Int) (now margin : Int) : Bool :=
  match expiry with
  | none => false
  | some e => decide (now + margin < e)

/-- Modelled from the spec: the Credential Set written back after an accepted
refresh exchange — `access_token` and `expiry_date` replaced, the stored
`refresh_token` kept unless the server rotated it, scopes untouched (spec
sections 3 and 8). -/
def applyRefresh (c : Credentials) (r : RefreshResponse) : Credentials :=
  { access_token := some r.access_token
    expiry_date := some r.expiry_date
    refresh_token :=
      match r.rotated_refresh_token with
      | some t => some t
      | none => c.refresh_token
    granted_scopes := c.granted_scopes }

/-- Modelled from the spec: `getAuthenticatedClient()` (spec section 4.1).
Absent credentials run the interactive flow; fresh credentials are returned
with zero network calls; stale credentials trigger exactly one refresh-token
exchange, whose rejection surfaces `RefreshFailed` and moves the state to
`Unauthenticated` (spec section 4: state machine). -/
def getAuthenticatedClient (store : Option Credentials) (env : Env) :
    AuthResult :=
  match store with
  | none =>
    match env.interactive with
    | some g =>
      { state := some g.toCredentials
        outcome := Except.ok g.toCredentials
        refreshCalls := 0
        networkCalls := 1
        interactiveCalls := 1 }
    | none =>
      { state := none
        outcome := Except.error AuthError.authorizationFailed
        refreshCalls := 0
        networkCalls := 1
        interactiveCalls := 1 }
  | some c =>
    if isFresh c.expiry_date env.now env.margin then
      { state := some c
        outcome := Except.ok c
        refreshCalls := 0
        networkCalls := 0
        interactiveCalls := 0 }
    else
      match env.refresh with
      | some r =>
        let c' := applyRefresh c r
        { state := some c'
          outcome := Except.ok c'
          refreshCalls := 1
          networkCalls := 1
          interactiveCalls := 0 }
      | none =>
        { state := none
          outcome := Except.error AuthError.refreshFailed
          refreshCalls := 1
          networkCalls := 1
          interactiveCalls := 0 }

/-- Modelled from the spec: `refreshToken()` forces one refresh exchange
regardless of expiry, with the same failure semantics as the expired branch
of `getAuthenticatedClient()` (spec section 4.1). A call with nothing
persisted has no refresh token to present and fails. -/
def refreshToken (store : Option Credentials) (env : Env) : AuthResult :=
  match store with
  | none =>
    { state := none
      outcome := Except.error AuthError.refreshFailed
      refreshCalls := 0
      networkCalls := 0
      interactiveCalls := 0 }
  | some c =>
    match env.refresh with
    | some r =>
      let c' := applyRefresh c r
      { state := some c'
        outcome := Except.ok c'
        refreshCalls := 1
        networkCalls := 1
        interactiveCalls := 0 }
    | none =>
      { state := none
        outcome := Except.error AuthError.refreshFailed
        refreshCalls := 1
        networkCalls := 1
        interactiveCalls := 0 }

/-- Modelled from the spec: `clearAuth()` deletes the persisted Credential
Set; a no-op success when nothing is persisted (spec section 4.1). The
`auth.clear` handler in `index.ts` and `clearAuth` in `auth-utils.js` both
delegate to this storage-clearing step. -/
def clearAuth (_store : Option Credentials) : Option Credentials := none

/-- `expireToken` from `scripts/auth-utils.js`: load the stored credentials;
if none are found, return without writing; otherwise set `expiry_date` to
`Date.now() - 1000` and save. The result is the value written back, `none`
meaning no write happened. -/
def expireToken (stored : Option Credentials) (now : Int) :
    Option Credentials :=
  match stored with
  | none => none
  | some c => some { c with expiry_date := some (now - 1000) }

/-- The status record printed by `showStatus` in `scripts/auth-utils.js`:
`hasAccessToken`, `hasRefreshToken` and `isExpired` as computed there. -/
structure AuthStatus where
  hasAccessToken : Bool
  hasRefreshToken : Bool
  isExpired : Bool
  deriving Repr, DecidableEq

/-- JavaScript truthiness of an optional string field (`!!credentials.x`):
false for a missing field and for the empty string. -/
def truthyString (s : Option String) : Bool :=
  match s with
  | none => false
  | some v => decide (v ≠ "")

/-- `showStatus` from `scripts/auth-utils.js` (the computed fields):
`hasAccessToken = !!credentials.access_token`,
`hasRefreshToken = !!credentials.refresh_token`,
`isExpired = expiry ? expiry < now : false` — a missing or zero (falsy)
`expiry_date` counts as not expired. -/
def showStatus (c : Credentials) (now : Int) : AuthStatus :=
  { hasAccessToken := truthyString c.access_token
    hasRefreshToken := truthyString c.refresh_token
    isExpired :=
      match c.expiry_date with
      | none => false
      | some e => if e = 0 then false else decide (e < now) }

/-- The operations that touch the persisted Credential Set: the manager's
`getAuthenticatedClient` and `refreshToken` (modelled from the spec), the
storage clear, and the CLI `expire` command from `scripts/auth-utils.js`. -/
inductive Op where
  | getClient (env : Env)
  | forceRefresh (env : Env)
  | clear
  | expire (now : Int)

/-- The persisted state after one operation. A CLI `expire` on an absent
Credential Set performs no write, so the state is unchanged. -/
def applyOp (store : Option Credentials) : Op → Option Credentials
  | Op.getClient env => (getAuthenticatedClient store env).state
  | Op.forceRefresh env => (refreshToken store env).state
  | Op.clear => clearAuth store
  | Op.expire now =>
    match expireToken store now with
    | none => store
    | some c => some c

/-- The persisted state after a sequence of operations. -/
def run (ops : List Op) (store : Option Credentials) : Option Credentials :=
  ops.foldl applyOp store

/-- The Credential Set invariant of spec section 3: the persisted set is
either absent or carries a `refresh_token` field. -/
def credInv (s : Option Credentials) : Bool :=
  match s with
  | none => true
  | some c => c.refresh_token.isSome

/-- A tool result content item as produced by the handlers in
`workspace-server/src/index.ts` (`type: "text"`). -/
inductive ToolContent where
  | text (s : String)
  deriving Repr, DecidableEq

/-- The `docs.extractIdFromUrl` tool handler from
`workspace-server/src/index.ts`: `extractDocId(input.url)` followed by
`text: result || ''` — the extraction helper itself is abstracted as a
parameter, so the theorem quantifies over every possible extractor. -/
def extractIdFromUrlTool (extractDocId : String → Option String)
    (url : String) : ToolContent :=
  ToolContent.text
    (match extractDocId url with
     | some s => if s = "" then "" else s
     | none => "")

/-- The startup-relevant events of `main` in
`workspace-server/src/index.ts`. -/
inductive Event where
  | authCall
  | constructService (name : String)
  | registerTool (name : String)
  | connect
  deriving Repr, DecidableEq

/-- Process outcome of the entry point: still serving, or exited with a
code (the `main().catch` handler calls `process.exit(1)`). -/
inductive Outcome where
  | running
  | exited (code : Nat)
  deriving Repr, DecidableEq

/-- The services constructed in `main`, in source order. -/
def serviceNames : List String :=
  ["DriveService", "DocsService", "PeopleService", "CalendarService",
   "ChatService", "GmailService", "TimeService", "SlidesService",
   "SheetsService"]

/-- The tools registered by `main` via `server.registerTool`, in source
order. -/
def toolNames : List String :=
  ["auth.clear", "auth.refreshToken", "docs.create", "docs.insertText",
   "docs.find", "drive.findFolder", "docs.move", "docs.getText",
   "docs.appendText", "docs.replaceText", "docs.extractIdFromUrl",
   "slides.getText", "slides.find", "slides.getMetadata", "sheets.getText",
   "sheets.getRange", "sheets.find", "sheets.getMetadata", "drive.search",
   "calendar.list", "calendar.createEvent", "calendar.listEvents",
   "calendar.getEvent", "calendar.findFreeTime", "calendar.updateEvent",
   "calendar.respondToEvent", "chat.listSpaces", "chat.findSpaceByName",
   "chat.sendMessage", "chat.getMessages", "chat.sendDm",
   "chat.findDmByEmail", "chat.listThreads", "chat.setUpSpace",
   "gmail.search", "gmail.get", "gmail.modify", "gmail.send",
   "gmail.createDraft", "gmail.sendDraft", "gmail.listLabels",
   "time.getCurrentDate", "time.getCurrentTime", "time.getTimeZone",
   "people.getUserProfile", "people.getMe"]

/-- `main` from `workspace-server/src/index.ts` as an event trace:
`getAuthenticatedClient()` is awaited first (line 59); only if it resolves
are the services constructed, the tools registered and the transport
connected. If it rejects, `main().catch` exits the process with code 1
before anything else has happened. -/
def mainTrace (authSucceeds : Bool) : List Event × Outcome :=
  if authSucceeds then
    (Event.authCall ::
      (serviceNames.map Event.constructService ++
       toolNames.map Event.registerTool ++ [Event.connect]),
     Outcome.running)
  else
    ([Event.authCall], Outcome.exited 1)

/-- Number of `getAuthenticatedClient` startup calls in a trace. -/
def countAuth : List Event → Nat
  | [] => 0
  | Event.authCall :: es => countAuth es + 1
  | _ :: es => countAuth es

/-- Whether a trace registers any tool. -/
def hasRegisterTool : List Event → Bool
  | [] => false
  | Event.registerTool _ :: _ => true
  | _ :: es => hasRegisterTool es

/-- C1: a rejected refresh-token exchange inside `getAuthenticatedClient()`
moves the persisted state to Unauthenticated (absent credentials), surfaces
`RefreshFailed`, and never returns a client handle. -/
theorem rejected_refresh_unauthenticates
    (c : Credentials) (env : Env)
    (hstale : isFresh c.expiry_date env.now env.margin = false)
    (hrej : env.refresh = none) :
    (getAuthenticatedClient (some c) env).state = none ∧
    (getAuthenticatedClient (some c) env).outcome =
      Except.error AuthError.refreshFailed ∧
    ∀ h : Credentials,
      (getAuthenticatedClient (some c) env).outcome ≠ Except.ok h := by
  simp [getAuthenticatedClient, hstale, hrej]

/-- C1 witness: a stored set expired long before the call, with the token
endpoint rejecting the refresh. -/
theorem rejected_refresh_unauthenticates_witness :
    (getAuthenticatedClient
      (some ⟨some "at", some "rt", some 1000, ["scopeA"]⟩)
      ⟨2000, 300000, none, none⟩).state = none ∧
    (getAuthenticatedClient
      (some ⟨some "at", some "rt", some 1000, ["scopeA"]⟩)
      ⟨2000, 300000, none, none⟩).outcome =
        Except.error AuthError.refreshFailed ∧
    ∀ h : Credentials,
      (getAuthenticatedClient
        (some ⟨some "at", some "rt", some 1000, ["scopeA"]⟩)
        ⟨2000, 300000, none, none⟩).outcome ≠ Except.ok h :=
  rejected_refresh_unauthenticates
    ⟨some "at", some "rt", some 1000, ["scopeA"]⟩
    ⟨2000, 300000, none, none⟩ (by decide) rfl

/-- C2: with a persisted Credential Set whose `expiry_date` is in the past,
`getAuthenticatedClient()` performs exactly one refresh-token exchange —
whether the exchange succeeds or is rejected, there is no retry. -/
theorem expired_exactly_one_refresh
    (c : Credentials) (e : Int) (env : Env)
    (hexp : c.expiry_date = some e) (hpast : e < env.now)
    (hmargin : 0 ≤ env.margin) :
    (getAuthenticatedClient (some c) env).refreshCalls = 1 := by
  have hstale : isFresh c.expiry_date env.now env.margin = false := by
    simp only [isFresh, hexp, decide_eq_false_iff_not, not_lt]
    omega
  cases henv : env.refresh <;>
    simp [getAuthenticatedClient, hstale, henv]

/-- C2 witness: an expired set, with the server accepting the refresh. -/
theorem expired_exactly_one_refresh_witness :
    (getAuthenticatedClient
      (some ⟨some "at", some "rt", some 1000, ["scopeA"]⟩)
      ⟨2000, 300000, none, some ⟨"at2", 999999, none⟩⟩).refreshCalls = 1 :=
  expired_exactly_one_refresh
    ⟨some "at", some "rt", some 1000, ["scopeA"]⟩ 1000
    ⟨2000, 300000, none, some ⟨"at2", 999999, none⟩⟩
    rfl (by decide) (by decide)

/-- C3: with a persisted Credential Set whose `expiry_date` lies beyond the
safety margin, `getAuthenticatedClient()` returns the stored handle with
zero network calls and zero refresh exchanges. -/
theorem fresh_zero_network_calls
    (c : Credentials) (e : Int) (env : Env)
    (hexp : c.expiry_date = some e) (hfut : env.now + env.margin < e) :
    (getAuthenticatedClient (some c) env).networkCalls = 0 ∧
    (getAuthenticatedClient (some c) env).refreshCalls = 0 ∧
    (getAuthenticatedClient (some c) env).outcome = Except.ok c := by
  have hfresh : isFresh c.expiry_date env.now env.margin = true := by
    simp [isFresh, hexp, hfut]
  simp [getAuthenticatedClient, hfresh]

/-- C3 witness: expiry well beyond now plus the margin. -/
theorem fresh_zero_network_calls_witness :
    (getAuthenticatedClient
      (some ⟨some "at", some "rt", some 999999, ["scopeA"]⟩)
      ⟨2000, 300000, none, none⟩).networkCalls = 0 ∧
    (getAuthenticatedClient
      (some ⟨some "at", some "rt", some 999999, ["scopeA"]⟩)
      ⟨2000, 300000, none, none⟩).refreshCalls = 0 ∧
    (getAuthenticatedClient
      (some ⟨some "at", some "rt", some 999999, ["scopeA"]⟩)
      ⟨2000, 300000, none, none⟩).outcome =
        Except.ok ⟨some "at", some "rt", some 999999, ["scopeA"]⟩ :=
  fresh_zero_network_calls
    ⟨some "at", some "rt", some 999999, ["scopeA"]⟩ 999999
    ⟨2000, 300000, none, none⟩ rfl (by decide)

/-- C4: `clearAuth()` is idempotent and a no-op success on an absent set,
and any subsequent `getAuthenticatedClient()` runs the full interactive flow
exactly once — its handle, when one is returned, comes from the fresh
interactive grant, never from a previously stored set. -/
theorem clearAuth_idempotent_then_interactive :
    (∀ s : Option Credentials, clearAuth (clearAuth s) = clearAuth s) ∧
    clearAuth none = none ∧
    (∀ (s : Option Credentials) (env : Env),
      (getAuthenticatedClient (clearAuth s) env).interactiveCalls = 1) ∧
    (∀ (s : Option Credentials) (env : Env) (g : TokenGrant),
      env.interactive = some g →
        (getAuthenticatedClient (clearAuth s) env).outcome =
          Except.ok g.toCredentials) := by
  refine ⟨fun s => rfl, rfl, fun s env => ?_, fun s env g hg => ?_⟩
  · cases h : env.interactive <;>
      simp [clearAuth, getAuthenticatedClient, h]
  · simp [clearAuth, getAuthenticatedClient, hg]

/-- C4 witness: clearing a stored set, then authenticating in an environment
whose interactive flow grants fresh tokens. -/
theorem clearAuth_idempotent_then_interactive_witness :
    (getAuthenticatedClient
      (clearAuth (some ⟨some "at", some "rt", some 999999, ["scopeA"]⟩))
      ⟨2000, 300000, some ⟨"newAt", "newRt", 888888, ["scopeA"]⟩,
        none⟩).outcome =
      Except.ok (TokenGrant.toCredentials ⟨"newAt", "newRt", 888888,
        ["scopeA"]⟩) :=
  clearAuth_idempotent_then_interactive.2.2.2
    (some ⟨some "at", some "rt", some 999999, ["scopeA"]⟩)
    ⟨2000, 300000, some ⟨"newAt", "newRt", 888888, ["scopeA"]⟩, none⟩
    ⟨"newAt", "newRt", 888888, ["scopeA"]⟩ rfl

/-- Each single operation preserves the Credential Set invariant: a state
that is absent or carries a refresh_token steps to a state that is absent or
carries a refresh_token. -/
theorem credInv_applyOp (s : Option Credentials) (op : Op)
    (h : credInv s = true) : credInv (applyOp s op) = true := by
  cases op with
  | getClient env =>
    cases s with
    | none =>
      cases hi : env.interactive <;>
        simp [applyOp, getAuthenticatedClient, credInv, hi,
          TokenGrant.toCredentials]
    | some c =>
      by_cases hf : isFresh c.expiry_date env.now env.margin = true
      · simpa [applyOp, getAuthenticatedClient, hf] using h
      · rw [Bool.not_eq_true] at hf
        cases hr : env.refresh with
        | none => simp [applyOp, getAuthenticatedClient, hf, hr, credInv]
        | some r =>
          simp only [applyOp, getAuthenticatedClient, hf, hr, Bool.false_eq_true,
            if_false, credInv, applyRefresh] at h ⊢
          cases hrot : r.rotated_refresh_token <;> simp [hrot, h]
  | forceRefresh env =>
    cases s with
    | none => simp [applyOp, refreshToken, credInv]
    | some c =>
      cases hr : env.refresh with
      | none => simp [applyOp, refreshToken, hr, credInv]
      | some r =>
        simp only [applyOp, refreshToken, hr, credInv, applyRefresh] at h ⊢
        cases hrot : r.rotated_refresh_token <;> simp [hrot, h]
  | clear => simp [applyOp, clearAuth, credInv]
  | expire now =>
    cases s with
    | none => simpa [applyOp, expireToken] using h
    | some c => simpa [applyOp, expireToken, credInv] using h

/-- A whole sequence of operations preserves the invariant. -/
theorem credInv_run (ops : List Op) (s : Option Credentials)
    (h : credInv s = true) : credInv (run ops s) = true := by
  induction ops generalizing s with
  | nil => simpa [run] using h
  | cons op rest ih =>
    have step := credInv_applyOp s op h
    simpa [run] using ih (applyOp s op) step

/-- C5: starting from no prior authorization, every reachable persisted
state — after interactive creation, every refresh, every clear, every CLI
expire — is either absent or contains a refresh_token. -/
theorem refresh_token_always_present (ops : List Op) :
    credInv (run ops none) = true :=
  credInv_run ops none rfl

/-- C6: the staleness decision is a pure function of `expiry_date` and the
clock alone — both the `showStatus` check in `scripts/auth-utils.js` and
the manager's safety-margin check agree on any two Credential Sets whose
`expiry_date` coincide, whatever their other fields. -/
theorem staleness_depends_only_on_expiry
    (c1 c2 : Credentials) (now margin : Int)
    (h : c1.expiry_date = c2.expiry_date) :
    (showStatus c1 now).isExpired = (showStatus c2 now).isExpired ∧
    isFresh c1.expiry_date now margin = isFresh c2.expiry_date now margin := by
  constructor
  · simp [showStatus, h]
  · rw [h]

/-- C6 witness: two sets sharing an expiry but differing in every other
field get the same staleness verdict. -/
theorem staleness_depends_only_on_expiry_witness :
    (showStatus ⟨some "at", some "rt", some 1000, ["scopeA"]⟩ 2000).isExpired
      = (showStatus ⟨none, none, some 1000, []⟩ 2000).isExpired ∧
    isFresh (Credentials.expiry_date
        ⟨some "at", some "rt", some 1000, ["scopeA"]⟩) 2000 300000
      = isFresh (Credentials.expiry_date ⟨none, none, some 1000, []⟩)
        2000 300000 :=
  staleness_depends_only_on_expiry
    ⟨some "at", some "rt", some 1000, ["scopeA"]⟩
    ⟨none, none, some 1000, []⟩ 2000 300000 rfl

/-- C7: an accepted refresh on an expired set persists the new
`access_token` and `expiry_date`; when the server does not rotate the
refresh token the stored `refresh_token` is retained verbatim, and the
granted scopes are untouched. -/
theorem refresh_preserves_refresh_token_and_scopes
    (c : Credentials) (e : Int) (env : Env) (r : RefreshResponse)
    (hexp : c.expiry_date = some e) (hpast : e < env.now)
    (hmargin : 0 ≤ env.margin) (hacc : env.refresh = some r)
    (hnorot : r.rotated_refresh_token = none) :
    (getAuthenticatedClient (some c) env).state =
      some { access_token := some r.access_token
             refresh_token := c.refresh_token
             expiry_date := some r.expiry_date
             granted_scopes := c.granted_scopes } := by
  have hstale : isFresh c.expiry_date env.now env.margin = false := by
    simp only [isFresh, hexp, decide_eq_false_iff_not, not_lt]
    omega
  simp [getAuthenticatedClient, hstale, hacc, applyRefresh, hnorot]

/-- C7 witness: expiry 1000ms before the call, refresh accepted without
rotation — only access_token and expiry_date change in the stored set. -/
theorem refresh_preserves_refresh_token_and_scopes_witness :
    (getAuthenticatedClient
      (some ⟨some "at", some "rt", some 1000, ["scopeA"]⟩)
      ⟨2000, 300000, none, some ⟨"at2", 999999, none⟩⟩).state =
      some ⟨some "at2", some "rt", some 999999, ["scopeA"]⟩ :=
  refresh_preserves_refresh_token_and_scopes
    ⟨some "at", some "rt", some 1000, ["scopeA"]⟩ 1000
    ⟨2000, 300000, none, some ⟨"at2", 999999, none⟩⟩
    ⟨"at2", 999999, none⟩ rfl (by decide) (by decide) rfl rfl

/-- C8: the CLI `expire` command writes nothing when no Credential Set is
stored, and otherwise saves the stored set with `expiry_date` set to one
second (1000ms) before the current time and every other field unchanged. -/
theorem expireToken_only_touches_expiry (now : Int) :
    expireToken none now = none ∧
    ∀ c : Credentials,
      expireToken (some c) now =
        some { access_token := c.access_token
               refresh_token := c.refresh_token
               expiry_date := some (now - 1000)
               granted_scopes := c.granted_scopes } :=
  ⟨rfl, fun _ => rfl⟩

/-- C9: the `docs.extractIdFromUrl` handler always answers with a text
content item — the extracted ID when the extractor succeeds, the empty
string (not an error) when it yields nothing. -/
theorem extractIdFromUrl_total_text
    (extractDocId : String → Option String) (url : String) :
    (∃ t, extractIdFromUrlTool extractDocId url = ToolContent.text t) ∧
    (∀ s, extractDocId url = some s →
      extractIdFromUrlTool extractDocId url = ToolContent.text s) ∧
    (extractDocId url = none →
      extractIdFromUrlTool extractDocId url = ToolContent.text "") := by
  refine ⟨⟨_, rfl⟩, fun s h => ?_, fun h => by simp [extractIdFromUrlTool, h]⟩
  by_cases hs : s = "" <;> simp [extractIdFromUrlTool, h, hs]

/-- C9 witness: an extractor that finds an ID, applied to a concrete URL. -/
theorem extractIdFromUrl_total_text_witness :
    extractIdFromUrlTool (fun _ => some "abc123")
      "docs.google.com/document/d/abc123/edit" = ToolContent.text "abc123" :=
  (extractIdFromUrl_total_text (fun _ => some "abc123")
    "docs.google.com/document/d/abc123/edit").2.1 "abc123" rfl

/-- C10: in every run of `main`, the startup trace begins with the single
`getAuthenticatedClient()` call — it happens exactly once and before any
service construction or tool registration — and when it fails the process
exits with code 1 having registered no tool. -/
theorem auth_gates_startup (authSucceeds : Bool) :
    (mainTrace authSucceeds).1.head? = some Event.authCall ∧
    countAuth (mainTrace authSucceeds).1 = 1 ∧
    (authSucceeds = false →
      (mainTrace authSucceeds).2 = Outcome.exited 1 ∧
      hasRegisterTool (mainTrace authSucceeds).1 = false) := by
  cases authSucceeds with
  | false => exact ⟨rfl, rfl, fun _ => ⟨rfl, rfl⟩⟩
  | true => exact ⟨rfl, rfl, fun h => nomatch h⟩

/-- C10 witness: the failing-auth run exits with code 1 and registers no
tool. -/
theorem auth_gates_startup_witness :
    (mainTrace false).2 = Outcome.exited 1 ∧
    hasRegisterTool (mainTrace false).1 = false :=
  (auth_gates_startup false).2.2 rfl

end GoogleWorkspaceMcp
